import Mathlib

/-
Verification of the SuperPetGame core: the `pallet-pet` ledger
(src/SuperPetChain/pallets/pet/src/lib.rs) and the client-side mint
submission / confirmation loop (src/SuperPetGame/src/menu.rs).

The pallet storage is embedded as total functions standing for the three
substrate storage maps; each dispatchable becomes a function returning
either a typed error (when an `ensure!`/`ok_or` check fails, before any
storage write) or the updated state together with the single event it
deposits.
-/

namespace PetPallet

/-- Account identifiers (`T::AccountId`), opaque comparable keys. -/
abbrev AccountId := Nat

/-- Pet identifiers (`type PetId = u32` in lib.rs). -/
abbrev PetId := Nat

/-- Logical time (`T::BlockNumber`). -/
abbrev BlockNumber := Nat

/-- The `Species` enum of lib.rs. -/
inductive Species where
  | Turtle
  | Snake
  | Rabbit
deriving DecidableEq, Repr

/-- The `PetInfo` struct of lib.rs: a bounded name (`BoundedVec<u8, StringLimit>`,
the length bound is enforced by the encoding layer, not by the dispatchables)
and a species. Bytes are modelled as naturals. -/
structure PetInfo where
  name : List Nat
  species : Species
deriving DecidableEq, Repr

/-- The three storage maps of the pallet:
`PetsInfo : StorageMap<AccountId, (PetId, PetInfo)>` (no entry ↦ `none`),
`LastFeedTime : StorageMap<PetId, BlockNumber, ValueQuery>` (ValueQuery:
a read always yields a value, missing entries read as the default 0),
`LastSleepTime : StorageMap<PetId, BlockNumber>` (OptionQuery: a read
yields `none` until the first insert). -/
structure PalletState where
  petsInfo : AccountId → Option (PetId × PetInfo)
  lastFeedTime : PetId → BlockNumber
  lastSleepTime : PetId → Option BlockNumber

/-- The empty store: no pets, no feed entries (ValueQuery default 0 reads),
no sleep entries. -/
def initialState : PalletState where
  petsInfo := fun _ => none
  lastFeedTime := fun _ => 0
  lastSleepTime := fun _ => none

/-- The `Event<T>` enum of lib.rs (spelling kept from the source). -/
inductive Event where
  | PetMinted (owner : AccountId) (petId : PetId)
  | PetTransfered (fromAcc : AccountId) (toAcc : AccountId) (petId : PetId)
  | PetFeeded (owner : AccountId) (petId : PetId)
  | PetSleeped (owner : AccountId) (petId : PetId)
deriving DecidableEq, Repr

/-- The `Error<T>` enum of lib.rs. -/
inductive PalletError where
  | AccountAlreadyHasPet
  | AccountHasNoPet
deriving DecidableEq, Repr

/-- Dispatchable `mint(origin, name, species, id)`: fails with `AccountAlreadyHasPet` when
`PetsInfo` already has an entry for the sender, otherwise inserts
`(id, PetInfo { name, species })` under the sender and deposits
`PetMinted(sender, id)`. -/
def mint (s : PalletState) (sender : AccountId) (name : List Nat)
    (species : Species) (id : PetId) : Except PalletError (PalletState × Event) :=
  if (s.petsInfo sender).isSome then
    .error .AccountAlreadyHasPet
  else
    let pet : PetInfo := { name := name, species := species }
    .ok ({ s with petsInfo := fun a => if a = sender then some (id, pet) else s.petsInfo a },
         .PetMinted sender id)

/-- Dispatchable `transfer(origin, receiver)`: fails with `AccountHasNoPet` when the sender
has no entry, then with `AccountAlreadyHasPet` when the receiver already has
one; otherwise inserts the `(id, pet)` pair of the sender under the receiver,
removes the entry of the sender, and deposits `PetTransfered(sender, receiver, id)`. -/
def transfer (s : PalletState) (sender receiver : AccountId) :
    Except PalletError (PalletState × Event) :=
  match s.petsInfo sender with
  | none => .error .AccountHasNoPet
  | some (id, pet) =>
    if (s.petsInfo receiver).isSome then
      .error .AccountAlreadyHasPet
    else
      .ok ({ s with petsInfo := fun a =>
               if a = sender then none
               else if a = receiver then some (id, pet)
               else s.petsInfo a },
           .PetTransfered sender receiver id)

/-- Dispatchable `feed(origin)`: fails with `AccountHasNoPet` when the sender has no entry;
otherwise inserts the current block number under the id of the pet in
`LastFeedTime` and deposits `PetFeeded(sender, id)`. -/
def feed (s : PalletState) (sender : AccountId) (now : BlockNumber) :
    Except PalletError (PalletState × Event) :=
  match s.petsInfo sender with
  | none => .error .AccountHasNoPet
  | some (id, _) =>
    .ok ({ s with lastFeedTime := fun j => if j = id then now else s.lastFeedTime j },
         .PetFeeded sender id)

/-- Dispatchable `sleep(origin)`: fails with `AccountHasNoPet` when the sender has no entry;
otherwise inserts the current block number under the id of the pet in
`LastSleepTime` and deposits `PetSleeped(sender, id)`. -/
def sleep (s : PalletState) (sender : AccountId) (now : BlockNumber) :
    Except PalletError (PalletState × Event) :=
  match s.petsInfo sender with
  | none => .error .AccountHasNoPet
  | some (id, _) =>
    .ok ({ s with lastSleepTime := fun j => if j = id then some now else s.lastSleepTime j },
         .PetSleeped sender id)

/-- The four dispatchable calls of the pallet, as a closed command type. -/
inductive Command where
  | Mint (name : List Nat) (species : Species) (id : PetId)
  | Transfer (receiver : AccountId)
  | Feed
  | Sleep
deriving DecidableEq, Repr

/-- Dispatch one signed command at block height `now`. -/
def dispatch (s : PalletState) (sender : AccountId) (now : BlockNumber) :
    Command → Except PalletError (PalletState × Event)
  | .Mint name species id => mint s sender name species id
  | .Transfer receiver => transfer s sender receiver
  | .Feed => feed s sender now
  | .Sleep => sleep s sender now

/-- A command together with its resolved signer and the height it executes at. -/
structure SignedCommand where
  sender : AccountId
  now : BlockNumber
  cmd : Command

/-- Apply one dispatched command to the store: a failed dispatch performs no
storage write (every check in the source precedes every insert/remove). -/
def applyCommand (s : PalletState) (c : SignedCommand) : PalletState :=
  match dispatch s c.sender c.now c.cmd with
  | .ok (s1, _) => s1
  | .error _ => s

/-- Run a sequence of dispatched commands from a starting store. -/
def runCommands (cmds : List SignedCommand) (s : PalletState) : PalletState :=
  cmds.foldl applyCommand s

/-- How many pet records the ownership index `PetsInfo` holds for an account:
a `StorageMap` entry is a single `(PetId, PetInfo)` pair or absent. -/
def recordsFor (s : PalletState) (a : AccountId) : Nat :=
  if (s.petsInfo a).isSome then 1 else 0

end PetPallet

/-
Client side: the `mint` async fn of src/SuperPetGame/src/menu.rs (lines
797-861) submits the extrinsic and then loops over the subxt transaction
status stream; the `MenuButtonAction::MintPet` arm of `menu_action`
(lines 743-759) blocks on that future and branches on its `Result`.
The status stream is embedded as a list of items (`None` from `next()`
is the end of the list), the `println!` side effects as an accumulated
log, and the `Result<(), Box<dyn Error>>` of the function as `MintResult`.
`fetch_events` is embedded as a total map from block reference to the
event list of a block (a fetch failure would propagate as a hard `Err` via
`?`, like a stream item error).
-/

namespace MintWatch

/-- Block references carried by InBlock/Finalized statuses. -/
abbrev BlockRef := Nat

/-- The subxt `TxStatus` variants relevant to the loop: `Ready`, `InBlock`
and `Finalized` are matched by name; the rest fall into the catch-all
`other` arm which only logs the status. -/
inductive TxStatus where
  | Ready
  | Broadcast
  | InBlock (b : BlockRef)
  | Finalized (b : BlockRef)
  | Dropped
  | Invalid
  | FinalityTimeout (b : BlockRef)
deriving DecidableEq, Repr

/-- One item of the status stream, `Result<TxStatus, subxt::Error>`:
`status?` propagates the error case out of the whole function. -/
inductive StreamItem where
  | ok (st : TxStatus)
  | err
deriving DecidableEq, Repr

/-- Events readable from a finalized block; the loop only ever tests whether
an event is the `PetMinted` variant (`events.find_first::<PetMinted>()`). -/
inductive ChainEvent where
  | PetMinted (owner : Nat) (petId : Nat)
  | OtherEvent (tag : Nat)
deriving DecidableEq, Repr

/-- The predicate `find_first::<PetMinted>` selects on. -/
def isPetMinted : ChainEvent → Bool
  | .PetMinted _ _ => true
  | .OtherEvent _ => false

/-- The `println!` lines of the loop body:
`finalizedInBlock` = "Transaction is finalized in block ",
`mintConfirmed` = "Yeah! You have your own pet!",
`alreadyHavePetMsg` = "Error::AlreadyHavePet",
`statusNote st` = "Status: {other:?}". -/
inductive LogLine where
  | finalizedInBlock
  | mintConfirmed
  | alreadyHavePetMsg
  | statusNote (st : TxStatus)
deriving DecidableEq, Repr

/-- The value the `mint` future resolves to: `Ok(())` or a hard error. -/
inductive MintResult where
  | ok
  | err
deriving DecidableEq, Repr

/-- The `while let Some(status) = mint_pet.next().await` loop of menu.rs:
on `Finalized` it fetches the events of the block and logs either the
confirmation line or "Error::AlreadyHavePet" depending on whether a
`PetMinted` event is found, then keeps looping; `Ready` and `InBlock` are
skipped; every other status is only logged; a stream item error exits with
`Err`; when the stream ends, the function returns `Ok(())`. -/
def watchLoop (fetchEvents : BlockRef → List ChainEvent) :
    List StreamItem → List LogLine → List LogLine × MintResult
  | [], log => (log, .ok)
  | .err :: _, log => (log, .err)
  | .ok st :: rest, log =>
    match st with
    | .Finalized b =>
      let events := fetchEvents b
      let mintedLine :=
        if (events.find? isPetMinted).isSome then LogLine.mintConfirmed
        else LogLine.alreadyHavePetMsg
      watchLoop fetchEvents rest (log ++ [LogLine.finalizedInBlock, mintedLine])
    | .Ready => watchLoop fetchEvents rest log
    | .InBlock _ => watchLoop fetchEvents rest log
    | other => watchLoop fetchEvents rest (log ++ [LogLine.statusNote other])

/-- The observable behaviour of the `mint` future for a given event fetcher
and status stream: the printed log and the resolved `Result`. -/
def mintPet (fetchEvents : BlockRef → List ChainEvent)
    (items : List StreamItem) : List LogLine × MintResult :=
  watchLoop fetchEvents items []

/-- Outcomes of the `MenuButtonAction::MintPet` arm of `menu_action`:
`Ok(_)` enables `PetOwned`, enters `GameState::Game` and disables the menu;
`Err(_)` returns to the main menu. -/
inductive MenuOutcome where
  | enterGame
  | stayOnMain
deriving DecidableEq, Repr

/-- The branch `menu_action` takes on the resolved mint result. -/
def menuActionMintPet (r : List LogLine × MintResult) : MenuOutcome :=
  match r.2 with
  | .ok => .enterGame
  | .err => .stayOnMain

/-- An event fetcher whose every block contains a `PetMinted` event. -/
def eventsWithMint : BlockRef → List ChainEvent :=
  fun _ => [ChainEvent.OtherEvent 0, ChainEvent.PetMinted 0 1]

/-- An event fetcher whose blocks contain no `PetMinted` event. -/
def eventsNoMint : BlockRef → List ChainEvent :=
  fun _ => [ChainEvent.OtherEvent 0]

end MintWatch


namespace PetPallet

/-- A store in which account 1 owns pet 7 and nobody else owns anything. -/
def sAlice : PalletState :=
  { initialState with
    petsInfo := fun a => if a = 1 then some (7, ⟨[65], Species.Turtle⟩) else none }

/-- A store in which accounts 1 and 2 each own a pet with the same id 7. -/
def sAliceBob : PalletState :=
  { initialState with
    petsInfo := fun a =>
      if a = 1 then some (7, ⟨[65], Species.Turtle⟩)
      else if a = 2 then some (7, ⟨[66], Species.Snake⟩)
      else none }

/-- Unfolding lemma: a mint from a sender with no entry returns the store
with the new record inserted under the sender and the `PetMinted` event. -/
lemma mint_ok (s : PalletState) (sender : AccountId) (name : List Nat)
    (sp : Species) (id : PetId) (hnone : s.petsInfo sender = none) :
    mint s sender name sp id =
      .ok ({ s with petsInfo := fun a =>
               if a = sender then some (id, ⟨name, sp⟩) else s.petsInfo a },
           .PetMinted sender id) := by
  unfold mint
  simp [hnone]

/-- Unfolding lemma: a transfer from an owner to an account with no entry
moves the pair and returns the `PetTransfered` event. -/
lemma transfer_ok (s : PalletState) (sender receiver : AccountId) (id : PetId)
    (pet : PetInfo) (hs : s.petsInfo sender = some (id, pet))
    (hr : s.petsInfo receiver = none) :
    transfer s sender receiver =
      .ok ({ s with petsInfo := fun a =>
               if a = sender then none
               else if a = receiver then some (id, pet)
               else s.petsInfo a },
           .PetTransfered sender receiver id) := by
  unfold transfer
  rw [hs]
  simp [hr]

/-- Unfolding lemma: a feed by the owner of pet `id` writes `now` into
`LastFeedTime[id]` and returns the `PetFeeded` event. -/
lemma feed_ok (s : PalletState) (sender : AccountId) (id : PetId) (pet : PetInfo)
    (now : BlockNumber) (hs : s.petsInfo sender = some (id, pet)) :
    feed s sender now =
      .ok ({ s with lastFeedTime := fun j => if j = id then now else s.lastFeedTime j },
           .PetFeeded sender id) := by
  unfold feed
  rw [hs]

/-- Unfolding lemma: a sleep by the owner of pet `id` writes `some now` into
`LastSleepTime[id]` and returns the `PetSleeped` event. -/
lemma sleep_ok (s : PalletState) (sender : AccountId) (id : PetId) (pet : PetInfo)
    (now : BlockNumber) (hs : s.petsInfo sender = some (id, pet)) :
    sleep s sender now =
      .ok ({ s with lastSleepTime := fun j => if j = id then some now else s.lastSleepTime j },
           .PetSleeped sender id) := by
  unfold sleep
  rw [hs]

/-- C1: after any sequence of dispatched commands from the empty store, the
ownership index holds at most one record per account (a `StorageMap` entry is
a single pair or absent); moreover `mint` only succeeds when the sender has
no entry, and `transfer` only succeeds when the receiver has no entry, so no
operation ever gives an account a second record. -/
theorem ownership_at_most_one (cmds : List SignedCommand) (a : AccountId) :
    recordsFor (runCommands cmds initialState) a ≤ 1 ∧
    (∀ (s : PalletState) (sender : AccountId) (name : List Nat) (sp : Species)
        (id : PetId) (out : PalletState × Event),
        mint s sender name sp id = .ok out → s.petsInfo sender = none) ∧
    (∀ (s : PalletState) (sender receiver : AccountId) (out : PalletState × Event),
        transfer s sender receiver = .ok out → s.petsInfo receiver = none) := by
  refine ⟨?_, ?_, ?_⟩
  · unfold recordsFor
    split <;> simp
  · intro s sender name sp id out h
    unfold mint at h
    by_cases hp : (s.petsInfo sender).isSome
    · simp [hp] at h
    · exact Option.not_isSome_iff_eq_none.mp hp
  · intro s sender receiver out h
    unfold transfer at h
    cases hs : s.petsInfo sender with
    | none => simp [hs] at h
    | some v =>
      rw [hs] at h
      by_cases hr : (s.petsInfo receiver).isSome
      · simp [hr] at h
      · exact Option.not_isSome_iff_eq_none.mp hr

/-- Witness for C1: a concrete mint/transfer/feed trace leaves account 2 with
at most one record, and the successful mint from the empty store indeed
started from an absent entry. -/
theorem ownership_at_most_one_witness :
    recordsFor (runCommands
      [⟨1, 0, Command.Mint [65] Species.Turtle 7⟩,
       ⟨1, 1, Command.Transfer 2⟩,
       ⟨2, 2, Command.Feed⟩] initialState) 2 ≤ 1 ∧
    initialState.petsInfo 1 = none :=
  ⟨(ownership_at_most_one _ 2).1,
   (ownership_at_most_one [] 0).2.1 initialState 1 [65] Species.Turtle 7
     ({ initialState with
        petsInfo := fun a =>
          if a = 1 then some (7, ⟨[65], Species.Turtle⟩) else initialState.petsInfo a },
      Event.PetMinted 1 7) rfl⟩

/-- C5: for a sender with no existing record, `mint(name, species, id)`
succeeds, stores `(id, PetInfo{name, species})` exactly as given under the
sender, emits `PetMinted(sender, id)`, and changes no entry of another account
and no activity timestamp. -/
theorem mint_success_spec (s : PalletState) (sender : AccountId) (name : List Nat)
    (sp : Species) (id : PetId) (hnone : s.petsInfo sender = none) :
    ∃ s1, mint s sender name sp id = .ok (s1, .PetMinted sender id) ∧
      s1.petsInfo sender = some (id, ⟨name, sp⟩) ∧
      (∀ b, b ≠ sender → s1.petsInfo b = s.petsInfo b) ∧
      s1.lastFeedTime = s.lastFeedTime ∧
      s1.lastSleepTime = s.lastSleepTime := by
  refine ⟨_, mint_ok s sender name sp id hnone, ?_, ?_, rfl, rfl⟩
  · simp
  · intro b hb
    simp [hb]

/-- Witness for C5: minting pet 7 for account 1 over the empty store. -/
theorem mint_success_spec_witness :
    ∃ s1, mint initialState 1 [65] Species.Turtle 7 = .ok (s1, .PetMinted 1 7) ∧
      s1.petsInfo 1 = some (7, ⟨[65], Species.Turtle⟩) ∧
      (∀ b, b ≠ 1 → s1.petsInfo b = initialState.petsInfo b) ∧
      s1.lastFeedTime = initialState.lastFeedTime ∧
      s1.lastSleepTime = initialState.lastSleepTime :=
  mint_success_spec initialState 1 [65] Species.Turtle 7 rfl

/-- C7: two distinct accounts, each owning nothing, can both mint with the
same id; both mints succeed and afterwards each account owns a record with
that id — no cross-account uniqueness of pet ids is enforced. -/
theorem mint_same_id_two_accounts (s : PalletState) (A B : AccountId) (i : PetId)
    (nameA nameB : List Nat) (spA spB : Species)
    (hAB : A ≠ B) (hA : s.petsInfo A = none) (hB : s.petsInfo B = none) :
    ∃ s1 s2, mint s A nameA spA i = .ok (s1, .PetMinted A i) ∧
      mint s1 B nameB spB i = .ok (s2, .PetMinted B i) ∧
      s2.petsInfo A = some (i, ⟨nameA, spA⟩) ∧
      s2.petsInfo B = some (i, ⟨nameB, spB⟩) := by
  have h1 := mint_ok s A nameA spA i hA
  have hB1 : ({ s with petsInfo := fun a =>
      if a = A then some (i, (⟨nameA, spA⟩ : PetInfo)) else s.petsInfo a } :
      PalletState).petsInfo B = none := by
    simp [Ne.symm hAB, hB]
  have h2 := mint_ok _ B nameB spB i hB1
  refine ⟨_, _, h1, h2, ?_, ?_⟩
  · simp [hAB, Ne.symm hAB]
  · simp

/-- Witness for C7: accounts 1 and 2 both mint id 7 from the empty store. -/
theorem mint_same_id_two_accounts_witness :
    ∃ s1 s2, mint initialState 1 [65] Species.Turtle 7 = .ok (s1, .PetMinted 1 7) ∧
      mint s1 2 [66] Species.Snake 7 = .ok (s2, .PetMinted 2 7) ∧
      s2.petsInfo 1 = some (7, ⟨[65], Species.Turtle⟩) ∧
      s2.petsInfo 2 = some (7, ⟨[66], Species.Snake⟩) :=
  mint_same_id_two_accounts initialState 1 2 7 [65] [66] Species.Turtle Species.Snake
    (by decide) rfl rfl

end PetPallet

namespace PetPallet

/-- C2: dispatch error semantics and atomicity. `mint` fails with
`AccountAlreadyHasPet` exactly when the sender already has an entry;
`transfer` fails with `AccountHasNoPet` when the sender has none and with
`AccountAlreadyHasPet` when the sender owns and the receiver already has an
entry; `feed` and `sleep` fail with `AccountHasNoPet` exactly when the sender
has no entry; a failing dispatch leaves the store unchanged and returns no
event, and a succeeding dispatch installs its result state and returns
exactly one event. -/
theorem dispatch_atomic_raises_iff (s : PalletState) (sender : AccountId)
    (now : BlockNumber) :
    (∀ (name : List Nat) (sp : Species) (id : PetId),
        mint s sender name sp id = .error .AccountAlreadyHasPet ↔
          (s.petsInfo sender).isSome = true) ∧
    (∀ receiver, s.petsInfo sender = none →
        transfer s sender receiver = .error .AccountHasNoPet) ∧
    (∀ receiver id pet, s.petsInfo sender = some (id, pet) →
        (s.petsInfo receiver).isSome = true →
        transfer s sender receiver = .error .AccountAlreadyHasPet) ∧
    (feed s sender now = .error .AccountHasNoPet ↔ s.petsInfo sender = none) ∧
    (sleep s sender now = .error .AccountHasNoPet ↔ s.petsInfo sender = none) ∧
    (∀ c e, dispatch s sender now c = .error e → applyCommand s ⟨sender, now, c⟩ = s) ∧
    (∀ c s1 ev, dispatch s sender now c = .ok (s1, ev) →
        applyCommand s ⟨sender, now, c⟩ = s1) := by
  refine ⟨?_, ?_, ?_, ?_, ?_, ?_, ?_⟩
  · intro name sp id
    by_cases hp : (s.petsInfo sender).isSome <;> simp [mint, hp]
  · intro receiver h
    unfold transfer
    rw [h]
  · intro receiver id pet hs hr
    unfold transfer
    rw [hs]
    simp [hr]
  · cases hs : s.petsInfo sender with
    | none => simp [feed, hs]
    | some v => simp [feed, hs]
  · cases hs : s.petsInfo sender with
    | none => simp [sleep, hs]
    | some v => simp [sleep, hs]
  · intro c e h
    simp [applyCommand, h]
  · intro c s1 ev h
    simp [applyCommand, h]

/-- Witness for C2: concrete failing and succeeding dispatches over the
demo stores. -/
theorem dispatch_atomic_raises_iff_witness :
    mint sAlice 1 [66] Species.Snake 3 = .error .AccountAlreadyHasPet ∧
    transfer initialState 1 2 = .error .AccountHasNoPet ∧
    feed initialState 1 5 = .error .AccountHasNoPet ∧
    applyCommand initialState ⟨1, 5, Command.Feed⟩ = initialState :=
  ⟨((dispatch_atomic_raises_iff sAlice 1 0).1 [66] Species.Snake 3).mpr rfl,
   (dispatch_atomic_raises_iff initialState 1 0).2.1 2 rfl,
   ((dispatch_atomic_raises_iff initialState 1 5).2.2.2.1).mpr rfl,
   (dispatch_atomic_raises_iff initialState 1 5).2.2.2.2.2.1 Command.Feed
     .AccountHasNoPet rfl⟩

/-- C6: a transfer from an owner of `(id, pet)` to a receiver with no entry
stores the very same pair under the receiver, removes the entry of the sender,
leaves every other account and both activity timestamps of the pet
untouched, and emits `PetTransfered(sender, receiver, id)`. -/
theorem transfer_frame_spec (s : PalletState) (sender receiver : AccountId)
    (id : PetId) (pet : PetInfo)
    (hs : s.petsInfo sender = some (id, pet)) (hr : s.petsInfo receiver = none) :
    ∃ s1, transfer s sender receiver = .ok (s1, .PetTransfered sender receiver id) ∧
      s1.petsInfo receiver = some (id, pet) ∧
      s1.petsInfo sender = none ∧
      (∀ b, b ≠ sender → b ≠ receiver → s1.petsInfo b = s.petsInfo b) ∧
      s1.lastFeedTime id = s.lastFeedTime id ∧
      s1.lastSleepTime id = s.lastSleepTime id := by
  have hne : receiver ≠ sender := by
    intro h
    rw [h, hs] at hr
    simp at hr
  refine ⟨_, transfer_ok s sender receiver id pet hs hr, ?_, ?_, ?_, rfl, rfl⟩
  · simp [hne]
  · simp
  · intro b hb1 hb2
    simp [hb1, hb2]

/-- Witness for C6: account 1 transfers pet 7 to account 2. -/
theorem transfer_frame_spec_witness :
    ∃ s1, transfer sAlice 1 2 = .ok (s1, .PetTransfered 1 2 7) ∧
      s1.petsInfo 2 = some (7, ⟨[65], Species.Turtle⟩) ∧
      s1.petsInfo 1 = none ∧
      (∀ b, b ≠ 1 → b ≠ 2 → s1.petsInfo b = sAlice.petsInfo b) ∧
      s1.lastFeedTime 7 = sAlice.lastFeedTime 7 ∧
      s1.lastSleepTime 7 = sAlice.lastSleepTime 7 :=
  transfer_frame_spec sAlice 1 2 7 ⟨[65], Species.Turtle⟩ rfl rfl

/-- C8: a successful feed at the current height writes that height into
`LastFeedTime[id]`, overwriting any previous value: feeding at `h1` and then
at `h2` leaves the timestamp at `h2`. -/
theorem feed_overwrites_time (s : PalletState) (sender : AccountId) (id : PetId)
    (pet : PetInfo) (h1 h2 : BlockNumber) (hs : s.petsInfo sender = some (id, pet)) :
    ∃ s1 s2, feed s sender h1 = .ok (s1, .PetFeeded sender id) ∧
      feed s1 sender h2 = .ok (s2, .PetFeeded sender id) ∧
      s1.lastFeedTime id = h1 ∧ s2.lastFeedTime id = h2 := by
  have hf1 := feed_ok s sender id pet h1 hs
  have hs1 : ({ s with lastFeedTime := fun j => if j = id then h1 else s.lastFeedTime j } :
      PalletState).petsInfo sender = some (id, pet) := hs
  have hf2 := feed_ok _ sender id pet h2 hs1
  exact ⟨_, _, hf1, hf2, by simp, by simp⟩

/-- Witness for C8: feeding pet 7 at height 5 and then at height 9 leaves
`LastFeedTime[7] = 9`. -/
theorem feed_overwrites_time_witness :
    ∃ s1 s2, feed sAlice 1 5 = .ok (s1, .PetFeeded 1 7) ∧
      feed s1 1 9 = .ok (s2, .PetFeeded 1 7) ∧
      s1.lastFeedTime 7 = 5 ∧ s2.lastFeedTime 7 = 9 :=
  feed_overwrites_time sAlice 1 7 ⟨[65], Species.Turtle⟩ 5 9 rfl

end PetPallet

namespace PetPallet

/-- A dispatched command that is not a sleep by an owner of pet `id` leaves
`LastSleepTime[id]` untouched: mint and transfer never write the activity
maps, feed writes only `LastFeedTime`, a failed sleep writes nothing, and a
successful sleep writes only the key of its own pet. -/
lemma applyCommand_preserves_sleepTime (s : PalletState) (c : SignedCommand)
    (id : PetId)
    (hc : c.cmd = Command.Sleep → ∀ pet, s.petsInfo c.sender ≠ some (id, pet)) :
    (applyCommand s c).lastSleepTime id = s.lastSleepTime id := by
  obtain ⟨sender, now, cmd⟩ := c
  cases cmd with
  | Mint name sp i =>
    by_cases hp : (s.petsInfo sender).isSome <;>
      simp [applyCommand, dispatch, mint, hp]
  | Transfer receiver =>
    cases hs : s.petsInfo sender with
    | none => simp [applyCommand, dispatch, transfer, hs]
    | some v =>
      by_cases hr : (s.petsInfo receiver).isSome <;>
        simp [applyCommand, dispatch, transfer, hs, hr]
  | Feed =>
    cases hs : s.petsInfo sender with
    | none => simp [applyCommand, dispatch, feed, hs]
    | some v => simp [applyCommand, dispatch, feed, hs]
  | Sleep =>
    cases hs : s.petsInfo sender with
    | none => simp [applyCommand, dispatch, sleep, hs]
    | some v =>
      obtain ⟨i, pet⟩ := v
      have hi : id ≠ i := by
        intro h
        exact hc rfl pet (h ▸ hs)
      simp [applyCommand, dispatch, sleep, hs, hi]

/-- A dispatched command that is not a feed by an owner of pet `id` leaves
`LastFeedTime[id]` untouched. -/
lemma applyCommand_preserves_feedTime (s : PalletState) (c : SignedCommand)
    (id : PetId)
    (hc : c.cmd = Command.Feed → ∀ pet, s.petsInfo c.sender ≠ some (id, pet)) :
    (applyCommand s c).lastFeedTime id = s.lastFeedTime id := by
  obtain ⟨sender, now, cmd⟩ := c
  cases cmd with
  | Mint name sp i =>
    by_cases hp : (s.petsInfo sender).isSome <;>
      simp [applyCommand, dispatch, mint, hp]
  | Transfer receiver =>
    cases hs : s.petsInfo sender with
    | none => simp [applyCommand, dispatch, transfer, hs]
    | some v =>
      by_cases hr : (s.petsInfo receiver).isSome <;>
        simp [applyCommand, dispatch, transfer, hs, hr]
  | Sleep =>
    cases hs : s.petsInfo sender with
    | none => simp [applyCommand, dispatch, sleep, hs]
    | some v => simp [applyCommand, dispatch, sleep, hs]
  | Feed =>
    cases hs : s.petsInfo sender with
    | none => simp [applyCommand, dispatch, feed, hs]
    | some v =>
      obtain ⟨i, pet⟩ := v
      have hi : id ≠ i := by
        intro h
        exact hc rfl pet (h ▸ hs)
      simp [applyCommand, dispatch, feed, hs, hi]

/-- C9: `LastSleepTime[id]` is absent (`none`, not zero) in the empty store
and stays absent across every step that is not a successful sleep for `id`;
one successful sleep at height `h` makes it `some h`. `LastFeedTime[id]`, by
contrast, always reads a value (the map is total), with sentinel height 0
when the pet has never been fed. -/
theorem sleep_presence_semantics (id : PetId) :
    initialState.lastSleepTime id = none ∧
    (∀ (s : PalletState) (c : SignedCommand),
        (c.cmd = Command.Sleep → ∀ pet, s.petsInfo c.sender ≠ some (id, pet)) →
        (applyCommand s c).lastSleepTime id = s.lastSleepTime id) ∧
    (∀ (s : PalletState) (sender : AccountId) (pet : PetInfo) (now : BlockNumber),
        s.petsInfo sender = some (id, pet) →
        ∃ s1, sleep s sender now = .ok (s1, .PetSleeped sender id) ∧
          s1.lastSleepTime id = some now) ∧
    initialState.lastFeedTime id = 0 ∧
    (∀ (s : PalletState) (c : SignedCommand),
        (c.cmd = Command.Feed → ∀ pet, s.petsInfo c.sender ≠ some (id, pet)) →
        (applyCommand s c).lastFeedTime id = s.lastFeedTime id) := by
  refine ⟨rfl, ?_, ?_, rfl, ?_⟩
  · intro s c hc
    exact applyCommand_preserves_sleepTime s c id hc
  · intro s sender pet now hs
    exact ⟨_, sleep_ok s sender id pet now hs, by simp⟩
  · intro s c hc
    exact applyCommand_preserves_feedTime s c id hc

/-- Witness for C9: pet 7 has no sleep entry in the empty store, a mint step
does not create one, and one sleep at height 4 sets it to `some 4`; its feed
entry reads the sentinel 0. -/
theorem sleep_presence_semantics_witness :
    initialState.lastSleepTime 7 = none ∧
    (applyCommand initialState ⟨1, 0, Command.Mint [65] Species.Turtle 7⟩).lastSleepTime 7 =
      initialState.lastSleepTime 7 ∧
    (∃ s1, sleep sAlice 1 4 = .ok (s1, .PetSleeped 1 7) ∧
        s1.lastSleepTime 7 = some 4) ∧
    initialState.lastFeedTime 7 = 0 :=
  ⟨(sleep_presence_semantics 7).1,
   (sleep_presence_semantics 7).2.1 initialState ⟨1, 0, Command.Mint [65] Species.Turtle 7⟩
     (by intro h; simp at h),
   (sleep_presence_semantics 7).2.2.1 sAlice 1 ⟨[65], Species.Turtle⟩ 4 rfl,
   (sleep_presence_semantics 7).2.2.2.1⟩

/-- C10: activity timestamps are keyed by pet id alone, so two pets minted
with the same id by distinct owners share one clock: a feed by owner A at
height `now` makes `LastFeedTime[i] = now`, the very entry read for the pet of B
(which still carries id `i`), and likewise a sleep makes
`LastSleepTime[i] = some now`. -/
theorem shared_activity_clock (s : PalletState) (A B : AccountId) (i : PetId)
    (petA petB : PetInfo) (now : BlockNumber)
    (hA : s.petsInfo A = some (i, petA)) (hB : s.petsInfo B = some (i, petB)) :
    (∃ s1, feed s A now = .ok (s1, .PetFeeded A i) ∧
        s1.lastFeedTime i = now ∧ s1.petsInfo B = some (i, petB)) ∧
    (∃ s2, sleep s A now = .ok (s2, .PetSleeped A i) ∧
        s2.lastSleepTime i = some now ∧ s2.petsInfo B = some (i, petB)) := by
  constructor
  · exact ⟨_, feed_ok s A i petA now hA, by simp, hB⟩
  · exact ⟨_, sleep_ok s A i petA now hA, by simp, hB⟩

/-- Witness for C10: accounts 1 and 2 both own pets with id 7; account 1
feeding (and sleeping) at height 3 sets the single shared clock entry. -/
theorem shared_activity_clock_witness :
    (∃ s1, feed sAliceBob 1 3 = .ok (s1, .PetFeeded 1 7) ∧
        s1.lastFeedTime 7 = 3 ∧ s1.petsInfo 2 = some (7, ⟨[66], Species.Snake⟩)) ∧
    (∃ s2, sleep sAliceBob 1 3 = .ok (s2, .PetSleeped 1 7) ∧
        s2.lastSleepTime 7 = some 3 ∧ s2.petsInfo 2 = some (7, ⟨[66], Species.Snake⟩)) :=
  shared_activity_clock sAliceBob 1 2 7 ⟨[65], Species.Turtle⟩ ⟨[66], Species.Snake⟩ 3
    rfl rfl

end PetPallet

namespace MintWatch

/-- Counterexample to C3: with the status sequence from the spec scenario
`[Ready, InBlock b1, Finalized b1]` and a finalized block holding no
`PetMinted` event, the watcher still resolves `Ok(())` — byte-for-byte the
same resolved value as the run whose block does hold the event — and the
menu handler of the caller takes the success branch; the "no matching event"
anomaly exists only as a printed log line, not as a distinct outcome. -/
theorem finalized_no_event_counterexample :
    (mintPet eventsNoMint
      [.ok .Ready, .ok (.InBlock 1), .ok (.Finalized 1)]).2 = MintResult.ok ∧
    (mintPet eventsNoMint [.ok .Ready, .ok (.InBlock 1), .ok (.Finalized 1)]).2 =
      (mintPet eventsWithMint [.ok .Ready, .ok (.InBlock 1), .ok (.Finalized 1)]).2 ∧
    menuActionMintPet
      (mintPet eventsNoMint [.ok .Ready, .ok (.InBlock 1), .ok (.Finalized 1)]) =
      MenuOutcome.enterGame :=
  ⟨rfl, rfl, rfl⟩

/-- C3 (amended): on `Finalized` the watcher fetches the events of that block and
searches for the `PetMinted` variant; it prints the confirmation line when
one is found and the distinct line "Error::AlreadyHavePet" when none is
found, but in both cases it resolves `Ok(())` without carrying the event —
only the printed log distinguishes the anomaly from plain success. -/
theorem finalized_event_logs (fetch : BlockRef → List ChainEvent) (b : BlockRef) :
    (((fetch b).find? isPetMinted).isSome = true →
        mintPet fetch [.ok .Ready, .ok (.InBlock b), .ok (.Finalized b)] =
          ([.finalizedInBlock, .mintConfirmed], .ok)) ∧
    (((fetch b).find? isPetMinted).isSome = false →
        mintPet fetch [.ok .Ready, .ok (.InBlock b), .ok (.Finalized b)] =
          ([.finalizedInBlock, .alreadyHavePetMsg], .ok)) := by
  constructor
  · intro h
    simp [mintPet, watchLoop, h]
  · intro h
    simp [mintPet, watchLoop, h]

/-- Witness for C3 (amended): a block with a `PetMinted` event yields the
confirmation log, one without yields the anomaly log; both resolve `Ok`. -/
theorem finalized_event_logs_witness :
    mintPet eventsWithMint [.ok .Ready, .ok (.InBlock 1), .ok (.Finalized 1)] =
      ([.finalizedInBlock, .mintConfirmed], .ok) ∧
    mintPet eventsNoMint [.ok .Ready, .ok (.InBlock 1), .ok (.Finalized 1)] =
      ([.finalizedInBlock, .alreadyHavePetMsg], .ok) :=
  ⟨(finalized_event_logs eventsWithMint 1).1 rfl,
   (finalized_event_logs eventsNoMint 1).2 rfl⟩

/-- Counterexample to C4: the status sequence `[Ready]` followed by stream
closure makes the loop exit and the function return `Ok(())` — the success
outcome — so the menu handler of the caller enters the game exactly as for a
confirmed mint; no `Timeout`/`Indeterminate` outcome exists. -/
theorem ready_closure_counterexample :
    mintPet eventsNoMint [.ok .Ready] = ([], MintResult.ok) ∧
    menuActionMintPet (mintPet eventsNoMint [.ok .Ready]) = MenuOutcome.enterGame :=
  ⟨rfl, rfl⟩

/-- A run of the status loop over only `Ready`/`InBlock` items prints nothing
and falls off the end of the stream with `Ok(())`. -/
lemma watchLoop_nonterminal (fetch : BlockRef → List ChainEvent)
    (items : List StreamItem) (log : List LogLine)
    (hnt : ∀ it ∈ items, it = .ok .Ready ∨ ∃ b, it = .ok (.InBlock b)) :
    watchLoop fetch items log = (log, .ok) := by
  induction items generalizing log with
  | nil => rfl
  | cons it rest ih =>
    rcases hnt it (List.mem_cons_self it rest) with h | ⟨b, h⟩
    · subst h
      exact ih log (fun d hd => hnt d (List.mem_cons_of_mem _ hd))
    · subst h
      exact ih log (fun d hd => hnt d (List.mem_cons_of_mem _ hd))

/-- C4 (amended): when the stream closes before any terminal status — every
observed item being `Ready` or `InBlock` — the `mint` future resolves
`Ok(())`, indistinguishable from the success path, and the menu
handler enters the game as if the mint were confirmed; the code has no
`Timeout`/`Indeterminate` outcome. -/
theorem nonterminal_closure_resolves_ok (fetch : BlockRef → List ChainEvent)
    (items : List StreamItem)
    (hnt : ∀ it ∈ items, it = .ok .Ready ∨ ∃ b, it = .ok (.InBlock b)) :
    mintPet fetch items = ([], MintResult.ok) ∧
    menuActionMintPet (mintPet fetch items) = MenuOutcome.enterGame := by
  have h := watchLoop_nonterminal fetch items [] hnt
  refine ⟨h, ?_⟩
  rw [mintPet, h]
  rfl

/-- Witness for C4 (amended): the stream `[Ready, InBlock 2]` closing without
a terminal status resolves `Ok(())` and the caller enters the game. -/
theorem nonterminal_closure_resolves_ok_witness :
    mintPet eventsNoMint [.ok .Ready, .ok (.InBlock 2)] = ([], MintResult.ok) ∧
    menuActionMintPet (mintPet eventsNoMint [.ok .Ready, .ok (.InBlock 2)]) =
      MenuOutcome.enterGame :=
  nonterminal_closure_resolves_ok eventsNoMint [.ok .Ready, .ok (.InBlock 2)]
    (by
      intro it hit
      simp only [List.mem_cons, List.not_mem_nil, or_false] at hit
      rcases hit with h | h
      · exact Or.inl h
      · exact Or.inr ⟨2, h⟩)

end MintWatch
